import Mathlib

/-!
Verification of the Multi-Agent AI Blog Generator (`streamlit_app.py`).

The file embeds the program's core — the completion-client wrapper
`call_llm`, the six agent functions, the keyword parsing, and the
sequential orchestration block behind the run button — as Lean
definitions, and proves or refutes the specification claims about them.

Modelling conventions:
* The external OpenAI endpoint (`client.chat.completions.create`) is an
  oracle `Nat → CallArgs → Except LLMError ChatResponse` indexed by the
  number of provider calls already made in the run, so that call counts
  and per-call failure patterns are expressible.  The orchestrator
  threads the call index; the second component of each result is the
  next call index.
* Python f-strings become explicit string concatenation.
* Python exceptions raised by the SDK (and the `IndexError` that
  `resp.choices[0]` would raise on an empty choice list) become
  `Except.error`; they propagate outward unhandled, exactly as in the
  script, aborting the run at the current stage.
* Floats only ever appear as literal temperatures that are compared for
  identity, so they are embedded as rationals.
* `st.stop()` after a validation error becomes an early return with a
  distinguished outcome; the in-memory stage results produced before a
  failure are carried in the `failed` outcome, mirroring the local
  variables `r`, `o`, `w`, `e`, `s` of the script.
-/

/-- One role-tagged chat message, as passed to the provider. -/
structure Message where
  role : String
  content : String
  deriving DecidableEq, Repr

/-- The argument bundle of one `client.chat.completions.create` call:
the messages plus the keyword arguments of `call_llm`. -/
structure CallArgs where
  messages : List Message
  api_key : String
  model : String
  temperature : ℚ
  max_tokens : Nat
  deriving DecidableEq, Repr

/-- `resp.choices[i].message` of the OpenAI response object. -/
structure ChatMessage where
  content : String
  deriving DecidableEq, Repr

/-- One element of `resp.choices`. -/
structure Choice where
  message : ChatMessage
  deriving DecidableEq, Repr

/-- The OpenAI chat-completion response object, reduced to the part the
program reads (`resp.choices[0].message.content`). -/
structure ChatResponse where
  choices : List Choice
  deriving DecidableEq, Repr

/-- Errors observable from a provider call: an exception raised by the
SDK (carrying a provider status and message), or the `IndexError` that
`resp.choices[0]` raises when the choice list is empty. -/
inductive LLMError where
  | providerError (status : Nat) (message : String)
  | indexError
  deriving DecidableEq, Repr

/-- A convenience constructor: the response a stub provider gives when
it answers with text `t`. -/
def mkResp (t : String) : ChatResponse :=
  ⟨[⟨⟨t⟩⟩]⟩

/-- `call_llm` (lines 41-49): performs the provider call and returns
`resp.choices[0].message.content`.  An SDK exception propagates; an
empty `choices` list raises `IndexError`; the content is returned as-is,
with no emptiness check. -/
def call_llm (create : CallArgs → Except LLMError ChatResponse) (args : CallArgs) :
    Except LLMError String :=
  match create args with
  | Except.error e => Except.error e
  | Except.ok resp =>
    match resp.choices with
    | [] => Except.error LLMError.indexError
    | c :: _ => Except.ok c.message.content

/-- `AgentResult` dataclass (lines 54-57). -/
structure AgentResult where
  role : String
  output : String
  deriving DecidableEq, Repr

/-- The sidebar settings shared by every agent call: `api_key`, `model`,
`temperature`, `max_tokens` (lines 25-28).  This is the run-level model
configuration; note that the agents never read `temperature` from it. -/
structure Config where
  api_key : String
  model : String
  temperature : ℚ
  max_tokens : Nat
  deriving DecidableEq, Repr

/-- The provider endpoint as seen by one run, indexed by the number of
provider calls already made. -/
abbrev Oracle := Nat → CallArgs → Except LLMError ChatResponse

/-- `', '.join(keywords) if keywords else 'N/A'` (lines 65 and 85): the
keyword field of a prompt; the empty list is rendered as the explicit
marker `"N/A"`. -/
def joinKeywords (keywords : List String) : String :=
  if keywords = [] then "N/A" else String.intercalate ", " keywords

/-- System prompt of `research_agent` (line 60). -/
def researchSystem : String :=
  "You are a meticulous research analyst. You gather factual points, recent statistics (with source names), and 5-8 key references/links. Use bullet points."

/-- User prompt of `research_agent` (lines 61-72). -/
def researchUser (topic audience tone : String) (keywords : List String) : String :=
  "\nTopic: " ++ topic ++ "\nAudience: " ++ audience ++ "\nTone: " ++ tone ++
    "\nTarget keywords: " ++ joinKeywords keywords ++
    "\n\nReturn:\n- 8-12 bullet points of facts with brief context\n- A short list of recent stats (if relevant)\n- 5-8 suggested sources/links (non-paywalled when possible)\nAvoid fabricating URLs.\n"

/-- The `CallArgs` of the research call (lines 73-76): temperature 0.4,
shared `api_key`, `model`, `max_tokens`. -/
def researchArgs (cfg : Config) (topic audience tone : String) (keywords : List String) :
    CallArgs :=
  { messages := [⟨"system", researchSystem⟩, ⟨"user", researchUser topic audience tone keywords⟩],
    api_key := cfg.api_key, model := cfg.model, temperature := 0.4, max_tokens := cfg.max_tokens }

/-- `research_agent` (lines 59-77). -/
def research_agent (create : Oracle) (n : Nat) (cfg : Config)
    (topic audience tone : String) (keywords : List String) :
    Except LLMError AgentResult × Nat :=
  match call_llm (create n) (researchArgs cfg topic audience tone keywords) with
  | Except.error e => (Except.error e, n + 1)
  | Except.ok out => (Except.ok ⟨"Research Agent", out⟩, n + 1)

/-- System prompt of `outline_agent` (line 80). -/
def outlineSystem : String :=
  "You are a senior content strategist. Create a logical, SEO-friendly outline for a long-form blog post."

/-- User prompt of `outline_agent` (lines 81-99). -/
def outlineUser (topic audience tone : String) (keywords : List String)
    (research : String) (word_target : Nat) : String :=
  "\nCreate an outline for a blog post on: \"" ++ topic ++ "\".\nAudience: " ++ audience ++
    "\nTone: " ++ tone ++ "\nTarget keywords: " ++ joinKeywords keywords ++
    "\nWord target: ~" ++ toString word_target ++
    " words.\n\nUse the research below to inform structure (do not repeat it verbatim):\n---\n" ++
    research ++
    "\n---\n\nReturn:\n- Title ideas (3)\n- H1\n- H2/H3 outline with approximate word counts\n- Notes on where to include stats, examples, or visuals\n- Suggested internal/external links placement\n"

/-- The `CallArgs` of the outline call (lines 100-103): temperature 0.5. -/
def outlineArgs (cfg : Config) (topic audience tone : String) (keywords : List String)
    (research : String) (word_target : Nat) : CallArgs :=
  { messages := [⟨"system", outlineSystem⟩,
      ⟨"user", outlineUser topic audience tone keywords research word_target⟩],
    api_key := cfg.api_key, model := cfg.model, temperature := 0.5, max_tokens := cfg.max_tokens }

/-- `outline_agent` (lines 79-104). -/
def outline_agent (create : Oracle) (n : Nat) (cfg : Config)
    (topic audience tone : String) (keywords : List String)
    (research : String) (word_target : Nat) :
    Except LLMError AgentResult × Nat :=
  match call_llm (create n) (outlineArgs cfg topic audience tone keywords research word_target) with
  | Except.error e => (Except.error e, n + 1)
  | Except.ok out => (Except.ok ⟨"Outline Agent", out⟩, n + 1)

/-- System prompt of `writing_agent` (line 107). -/
def writingSystem : String :=
  "You are a staff content writer. Produce clear, engaging, well-structured markdown content following the outline. Cite sources inline when appropriate."

/-- User prompt of `writing_agent` (lines 108-128). -/
def writingUser (topic audience tone outline research : String) : String :=
  "\nWrite the full draft in **markdown** for the topic \"" ++ topic ++ "\".\nAudience: " ++
    audience ++ "\nTone: " ++ tone ++ "\n\nFollow this outline strictly:\n---\n" ++ outline ++
    "\n---\n\nIncorporate relevant points from this research when helpful:\n---\n" ++ research ++
    "\n---\n\nGuidelines:\n- Use headings (#, ##, ###), short paragraphs, and occasional bullet lists.\n- Add a table of contents placeholder.\n- Keep claims grounded; when referencing a stat or specific figure, attribute it (e.g., \"(Source: Organization, Year)\").\n- Avoid fabricating links; reference source names even if link unknown.\n"

/-- The `CallArgs` of the drafting call (lines 129-132): temperature 0.8. -/
def writingArgs (cfg : Config) (topic audience tone outline research : String) : CallArgs :=
  { messages := [⟨"system", writingSystem⟩,
      ⟨"user", writingUser topic audience tone outline research⟩],
    api_key := cfg.api_key, model := cfg.model, temperature := 0.8, max_tokens := cfg.max_tokens }

/-- `writing_agent` (lines 106-133). -/
def writing_agent (create : Oracle) (n : Nat) (cfg : Config)
    (topic audience tone outline research : String) :
    Except LLMError AgentResult × Nat :=
  match call_llm (create n) (writingArgs cfg topic audience tone outline research) with
  | Except.error e => (Except.error e, n + 1)
  | Except.ok out => (Except.ok ⟨"Writing Agent", out⟩, n + 1)

/-- System prompt of `editing_agent` (line 136). -/
def editingSystem : String :=
  "You are a seasoned editor focused on clarity, flow, and correctness. Keep the author\x27s voice while tightening."

/-- User prompt of `editing_agent` (lines 137-145).  Note that it is
built from the draft and the tone only; the `audience` parameter of
`editing_agent` is never interpolated. -/
def editingUser (draft_md tone : String) : String :=
  "\nEdit the following markdown draft for clarity, flow, correctness, and concision. Maintain the intended tone: " ++
    tone ++ ". Preserve markdown structure.\n\n---\n" ++ draft_md ++
    "\n---\n\nReturn the revised **markdown** in full.\n"

/-- The `CallArgs` of the editing call (lines 146-149): temperature 0.3.
The `audience` argument is accepted, as in the source, but unused. -/
def editingArgs (cfg : Config) (draft_md audience tone : String) : CallArgs :=
  { messages := [⟨"system", editingSystem⟩, ⟨"user", editingUser draft_md tone⟩],
    api_key := cfg.api_key, model := cfg.model, temperature := 0.3, max_tokens := cfg.max_tokens }

/-- `editing_agent` (lines 135-150). -/
def editing_agent (create : Oracle) (n : Nat) (cfg : Config)
    (draft_md audience tone : String) :
    Except LLMError AgentResult × Nat :=
  match call_llm (create n) (editingArgs cfg draft_md audience tone) with
  | Except.error e => (Except.error e, n + 1)
  | Except.ok out => (Except.ok ⟨"Editing Agent", out⟩, n + 1)

/-- System prompt of `seo_agent` (line 153). -/
def seoSystem : String :=
  "You are an SEO specialist. You craft metadata and on-page recommendations."

/-- User prompt of `seo_agent` (lines 154-167).  It interpolates only
`draft_md`; the `topic`, `audience` and `keywords` parameters of
`seo_agent` are never interpolated. -/
def seoUser (draft_md : String) : String :=
  "\nBased on the markdown draft below, produce:\n- Final SEO title (≤ 60 chars if possible)\n- Meta description (≤ 155 chars)\n- URL slug\n- Primary keyword + 4-8 secondary keywords\n- 5-7 FAQs (Q&A pairs) to append as an FAQ section\n- Recommended internal link anchors (generic) and external link types\n\nDraft:\n---\n" ++
    draft_md ++ "\n---\n"

/-- The `CallArgs` of the SEO call (lines 168-171): temperature 0.5.
`topic`, `audience` and `keywords` are accepted, as in the source, but
unused. -/
def seoArgs (cfg : Config) (topic audience : String) (keywords : List String)
    (draft_md : String) : CallArgs :=
  { messages := [⟨"system", seoSystem⟩, ⟨"user", seoUser draft_md⟩],
    api_key := cfg.api_key, model := cfg.model, temperature := 0.5, max_tokens := cfg.max_tokens }

/-- `seo_agent` (lines 152-172). -/
def seo_agent (create : Oracle) (n : Nat) (cfg : Config)
    (topic audience : String) (keywords : List String) (draft_md : String) :
    Except LLMError AgentResult × Nat :=
  match call_llm (create n) (seoArgs cfg topic audience keywords draft_md) with
  | Except.error e => (Except.error e, n + 1)
  | Except.ok out => (Except.ok ⟨"SEO Agent", out⟩, n + 1)

/-- System prompt of `finalizer_agent` (line 175). -/
def finalizerSystem : String :=
  "You are a content packager. You assemble final deliverables."

/-- User prompt of `finalizer_agent` (lines 176-188). -/
def finalizerUser (draft_md seo : String) : String :=
  "\nCombine the edited markdown with the SEO pack. Append an **FAQ** section if provided by SEO. Ensure a clean Table of Contents placeholder after the H1. Return final markdown only.\n\nEdited Draft:\n---\n" ++
    draft_md ++ "\n---\n\nSEO Pack:\n---\n" ++ seo ++ "\n---\n"

/-- The `CallArgs` of the finalizer call (lines 189-192): temperature 0.2. -/
def finalizerArgs (cfg : Config) (draft_md seo : String) : CallArgs :=
  { messages := [⟨"system", finalizerSystem⟩, ⟨"user", finalizerUser draft_md seo⟩],
    api_key := cfg.api_key, model := cfg.model, temperature := 0.2, max_tokens := cfg.max_tokens }

/-- `finalizer_agent` (lines 174-193). -/
def finalizer_agent (create : Oracle) (n : Nat) (cfg : Config)
    (draft_md seo : String) :
    Except LLMError AgentResult × Nat :=
  match call_llm (create n) (finalizerArgs cfg draft_md seo) with
  | Except.error e => (Except.error e, n + 1)
  | Except.ok out => (Except.ok ⟨"Finalizer", out⟩, n + 1)

/-- Python's `str.strip()` whitespace class, restricted to the ASCII
whitespace characters (`' '`, `'\t'`, `'\n'`, `'\r'`, `'\x0b'`,
`'\x0c'`); Python additionally strips non-ASCII Unicode whitespace,
which does not affect any claim. -/
def isPySpace (c : Char) : Bool :=
  c = ' ' || c = '\t' || c = '\n' || c = '\r' || c = '\x0b' || c = '\x0c'

/-- Python's `k.strip()` on the character list of `k`: drop whitespace
from the front, then from the back. -/
def pyStrip (l : List Char) : List Char :=
  List.rdropWhile isPySpace (l.dropWhile isPySpace)

/-- Python's `keywords.split(",")` on character lists: split at every
comma; `splitComma [] = [[]]`, matching `"".split(",") == [""]`. -/
def splitCommaAux : List Char → List Char → List (List Char)
  | [], acc => [acc.reverse]
  | c :: cs, acc =>
    if c = ',' then acc.reverse :: splitCommaAux cs [] else splitCommaAux cs (c :: acc)

def splitComma (l : List Char) : List (List Char) :=
  splitCommaAux l []

/-- Line 223: `kw_list = [k.strip() for k in keywords.split(",") if k.strip()]
if keywords else []`. -/
def kwList (keywords : String) : List String :=
  if keywords = "" then []
  else
    ((((splitComma keywords.data).map pyStrip).filter fun k => decide (k ≠ [])).map
      fun l => String.mk l)

/-- The observable outcome of pressing the run button (lines 215-267).
`missingKey` and `missingTopicOrAudience` are the two validation halts
(`st.error` + `st.stop`); `failed` is an uncaught provider exception at
the named stage, carrying the stage results already produced; `success`
carries the five stage results and the finalizer's document. -/
inductive RunOutcome where
  | missingKey
  | missingTopicOrAudience
  | failed (stage : String) (completed : List AgentResult) (e : LLMError)
  | success (stages : List AgentResult) (final : AgentResult)
  deriving DecidableEq, Repr

/-- The orchestration block behind the run button (lines 215-267): the
two validation guards, the keyword parsing, and the six sequential agent
calls.  The second component is the number of provider calls made. -/
def runPipeline (create : Oracle) (cfg : Config)
    (topic audience tone keywords : String) (word_target : Nat) :
    RunOutcome × Nat :=
  if cfg.api_key = "" then (RunOutcome.missingKey, 0)
  else if topic = "" ∨ audience = "" then (RunOutcome.missingTopicOrAudience, 0)
  else
    let kw_list := kwList keywords
    match research_agent create 0 cfg topic audience tone kw_list with
    | (Except.error err, n) => (RunOutcome.failed "Research Agent" [] err, n)
    | (Except.ok r, n1) =>
      match outline_agent create n1 cfg topic audience tone kw_list r.output word_target with
      | (Except.error err, n) => (RunOutcome.failed "Outline Agent" [r] err, n)
      | (Except.ok o, n2) =>
        match writing_agent create n2 cfg topic audience tone o.output r.output with
        | (Except.error err, n) => (RunOutcome.failed "Writing Agent" [r, o] err, n)
        | (Except.ok w, n3) =>
          match editing_agent create n3 cfg w.output audience tone with
          | (Except.error err, n) => (RunOutcome.failed "Editing Agent" [r, o, w] err, n)
          | (Except.ok e, n4) =>
            match seo_agent create n4 cfg topic audience kw_list e.output with
            | (Except.error err, n) => (RunOutcome.failed "SEO Agent" [r, o, w, e] err, n)
            | (Except.ok s, n5) =>
              match finalizer_agent create n5 cfg e.output s.output with
              | (Except.error err, n) => (RunOutcome.failed "Finalizer" [r, o, w, e, s] err, n)
              | (Except.ok f, n6) => (RunOutcome.success [r, o, w, e, s] f, n6)

/-- The oracle of a stub provider that answers every call with the text
`stub n args` (a successful, single-choice response). -/
def okOracle (stub : Nat → CallArgs → String) : Oracle :=
  fun n args => Except.ok (mkResp (stub n args))

/-- The oracle of a stub provider that fails with `err` on its third
call (index 2) and succeeds with `stub n args` on every other call. -/
def failThirdOracle (stub : Nat → CallArgs → String) (err : LLMError) : Oracle :=
  fun n args => if n = 2 then Except.error err else Except.ok (mkResp (stub n args))

/-- The oracle of a deterministic stub provider: its answer depends
only on the call arguments, never on the call index. -/
def detOracle (g : CallArgs → Except LLMError ChatResponse) : Oracle :=
  fun _ => g

/-- A concrete argument bundle used to exercise `call_llm` on its own. -/
def stubArgs : CallArgs :=
  ⟨[⟨"user", "hello"⟩], "key", "gpt-4o-mini", 0.7, 1200⟩

/-- `hay` contains `needle` as a contiguous substring (on the character
lists of the two strings). -/
abbrev containsText (hay needle : String) : Prop :=
  needle.data <:+: hay.data

/-! ## Helper lemmas -/

/-- A string contains any middle factor of an append. -/
theorem containsText_append (a b c : String) : containsText (a ++ b ++ c) b :=
  ⟨a.data, c.data, by simp [String.data_append]⟩

/-- `dropWhile` leaves a list that `pyStrip` is built from unchanged:
the residue of a `dropWhile` stays fixed under another `dropWhile`, even
after trailing characters are removed. -/
theorem dropWhile_eq_self_of_prefix {p : Char → Bool} {l u : List Char}
    (hpre : l <+: u) (hu : u.dropWhile p = u) : l.dropWhile p = l := by
  rw [List.dropWhile_eq_self_iff] at hu ⊢
  intro hl
  obtain ⟨t, rfl⟩ := hpre
  cases l with
  | nil => simp at hl
  | cons a l' =>
    have hlen : 0 < ((a :: l') ++ t).length := by simp
    simpa using hu hlen

/-- Python's `strip` is idempotent. -/
theorem pyStrip_idem (l : List Char) : pyStrip (pyStrip l) = pyStrip l := by
  have hu : (l.dropWhile isPySpace).dropWhile isPySpace = l.dropWhile isPySpace := by
    rw [List.dropWhile_eq_self_iff]
    intro hl
    exact List.dropWhile_get_zero_not isPySpace l hl
  have hpre : List.rdropWhile isPySpace (l.dropWhile isPySpace) <+: l.dropWhile isPySpace :=
    List.rdropWhile_prefix _ _
  have h1 : (pyStrip l).dropWhile isPySpace = pyStrip l :=
    dropWhile_eq_self_of_prefix hpre hu
  show List.rdropWhile isPySpace ((pyStrip l).dropWhile isPySpace) = pyStrip l
  rw [h1]
  exact List.rdropWhile_idempotent _ _

/-- Stripping a list made purely of whitespace yields the empty list. -/
theorem pyStrip_eq_nil {l : List Char} (h : ∀ c ∈ l, isPySpace c) : pyStrip l = [] := by
  unfold pyStrip
  rw [List.dropWhile_eq_nil_iff.mpr h]
  simp

/-- Every character of every piece of `splitCommaAux l acc` satisfies
`P` provided every character of `l` is a comma or satisfies `P` and
every character of `acc` satisfies `P` (commas never enter a piece). -/
theorem splitCommaAux_chars (P : Char → Prop) (l : List Char) :
    ∀ acc : List Char, (∀ c ∈ l, c = ',' ∨ P c) → (∀ c ∈ acc, P c) →
      ∀ x ∈ splitCommaAux l acc, ∀ c ∈ x, P c := by
  induction l with
  | nil =>
    intro acc _ hacc x hx c hc
    simp only [splitCommaAux, List.mem_singleton] at hx
    subst hx
    exact hacc c (List.mem_reverse.mp hc)
  | cons a l ih =>
    intro acc hl hacc x hx c hc
    by_cases ha : a = ','
    · rw [splitCommaAux, if_pos ha] at hx
      rcases List.mem_cons.mp hx with hx | hx
      · subst hx
        exact hacc c (List.mem_reverse.mp hc)
      · exact ih [] (fun d hd => hl d (List.mem_cons_of_mem _ hd)) (by simp) x hx c hc
    · rw [splitCommaAux, if_neg ha] at hx
      refine ih (a :: acc) (fun d hd => hl d (List.mem_cons_of_mem _ hd)) ?_ x hx c hc
      intro d hd
      rcases List.mem_cons.mp hd with rfl | hd
      · rcases hl d (List.mem_cons_self _ _) with h | h
        · exact absurd h ha
        · exact h
      · exact hacc d hd

/-! ## Claims -/

/-- C2: for every run request whose topic is empty or whose audience is
empty (or whose API key is absent), the run halts on a validation error
and the provider is invoked zero times, for every oracle. -/
theorem validation_halts_with_zero_calls (create : Oracle) (cfg : Config)
    (topic audience tone keywords : String) (word_target : Nat)
    (h : cfg.api_key = "" ∨ topic = "" ∨ audience = "") :
    ∃ v, runPipeline create cfg topic audience tone keywords word_target = (v, 0) ∧
      (v = RunOutcome.missingKey ∨ v = RunOutcome.missingTopicOrAudience) := by
  by_cases hk : cfg.api_key = ""
  · refine ⟨RunOutcome.missingKey, ?_, Or.inl rfl⟩
    unfold runPipeline
    rw [if_pos hk]
  · have hv : topic = "" ∨ audience = "" := by
      rcases h with h | h
      · exact absurd h hk
      · exact h
    refine ⟨RunOutcome.missingTopicOrAudience, ?_, Or.inr rfl⟩
    unfold runPipeline
    rw [if_neg hk, if_pos hv]

/-- Witness for C2: a run with an empty topic halts with a validation
error and zero provider calls. -/
theorem validation_halts_with_zero_calls_witness :
    ∃ v, runPipeline (okOracle fun _ _ => "x") ⟨"key", "gpt-4o-mini", 0.7, 1200⟩
        "" "HR managers" "Professional" "" 1200 = (v, 0) ∧
      (v = RunOutcome.missingKey ∨ v = RunOutcome.missingTopicOrAudience) :=
  validation_halts_with_zero_calls (okOracle fun _ _ => "x")
    ⟨"key", "gpt-4o-mini", 0.7, 1200⟩ "" "HR managers" "Professional" "" 1200
    (Or.inr (Or.inl rfl))

/-- C7: every stage calls the provider with its own fixed temperature
(Research 0.4, Outline 0.5, Draft 0.8, Edit 0.3, SEO 0.5), regardless of
the run-level configured temperature, while sharing the run-level
`model`, `max_tokens` and `api_key`. -/
theorem per_stage_call_parameters (cfg : Config)
    (topic audience tone outline research draft seo : String)
    (keywords : List String) (word_target : Nat) :
    (researchArgs cfg topic audience tone keywords).temperature = 0.4 ∧
    (outlineArgs cfg topic audience tone keywords research word_target).temperature = 0.5 ∧
    (writingArgs cfg topic audience tone outline research).temperature = 0.8 ∧
    (editingArgs cfg draft audience tone).temperature = 0.3 ∧
    (seoArgs cfg topic audience keywords draft).temperature = 0.5 ∧
    (researchArgs cfg topic audience tone keywords).model = cfg.model ∧
    (outlineArgs cfg topic audience tone keywords research word_target).model = cfg.model ∧
    (writingArgs cfg topic audience tone outline research).model = cfg.model ∧
    (editingArgs cfg draft audience tone).model = cfg.model ∧
    (seoArgs cfg topic audience keywords draft).model = cfg.model ∧
    (researchArgs cfg topic audience tone keywords).max_tokens = cfg.max_tokens ∧
    (outlineArgs cfg topic audience tone keywords research word_target).max_tokens = cfg.max_tokens ∧
    (writingArgs cfg topic audience tone outline research).max_tokens = cfg.max_tokens ∧
    (editingArgs cfg draft audience tone).max_tokens = cfg.max_tokens ∧
    (seoArgs cfg topic audience keywords draft).max_tokens = cfg.max_tokens ∧
    (researchArgs cfg topic audience tone keywords).api_key = cfg.api_key ∧
    (outlineArgs cfg topic audience tone keywords research word_target).api_key = cfg.api_key ∧
    (writingArgs cfg topic audience tone outline research).api_key = cfg.api_key ∧
    (editingArgs cfg draft audience tone).api_key = cfg.api_key ∧
    (seoArgs cfg topic audience keywords draft).api_key = cfg.api_key :=
  ⟨rfl, rfl, rfl, rfl, rfl, rfl, rfl, rfl, rfl, rfl,
   rfl, rfl, rfl, rfl, rfl, rfl, rfl, rfl, rfl, rfl⟩

/-- C8: against a deterministic stub provider (one whose answer does not
depend on the call index), two finalizer invocations with identical
edited-draft and SEO-pack inputs produce identical results. -/
theorem finalizer_deterministic (g : CallArgs → Except LLMError ChatResponse)
    (n m : Nat) (cfg : Config) (draft_md seo : String) :
    (finalizer_agent (detOracle g) n cfg draft_md seo).1 =
      (finalizer_agent (detOracle g) m cfg draft_md seo).1 := by
  simp only [finalizer_agent, detOracle]
  cases call_llm g (finalizerArgs cfg draft_md seo) with
  | error e => rfl
  | ok out => rfl

/-- C10: every keyword handed to the stages is non-empty and free of
leading/trailing whitespace, and an input made of only commas and
whitespace parses to the empty keyword list. -/
theorem kwList_wellformed (keywords : String) :
    (∀ x ∈ kwList keywords, x ≠ "" ∧ pyStrip x.data = x.data) ∧
    ((∀ c ∈ keywords.data, c = ',' ∨ isPySpace c) → kwList keywords = []) := by
  constructor
  · intro x hx
    by_cases hk : keywords = ""
    · rw [kwList, if_pos hk] at hx
      simp at hx
    · rw [kwList, if_neg hk] at hx
      simp only [List.mem_map, List.mem_filter, decide_eq_true_eq] at hx
      obtain ⟨lx, ⟨hmem, hne⟩, rfl⟩ := hx
      obtain ⟨ly, _, rfl⟩ := hmem
      refine ⟨?_, pyStrip_idem ly⟩
      intro h0
      exact hne (congrArg String.data h0)
  · intro hall
    by_cases hk : keywords = ""
    · rw [kwList, if_pos hk]
    · rw [kwList, if_neg hk]
      have hnil : ∀ lx ∈ (splitComma keywords.data).map pyStrip, lx = [] := by
        intro lx hlx
        obtain ⟨ly, hy, rfl⟩ := List.mem_map.mp hlx
        refine pyStrip_eq_nil ?_
        exact splitCommaAux_chars (fun c => isPySpace c = true) keywords.data []
          hall (by simp) ly hy
      rw [List.filter_eq_nil_iff.mpr fun lx hlx => by rw [hnil lx hlx]; simp]
      rfl

/-- Witness for C10: a padded input parses to stripped non-empty
keywords, and a commas-and-whitespace input parses to the empty list. -/
theorem kwList_wellformed_witness :
    ("remote work" ≠ "" ∧ pyStrip "remote work".data = "remote work".data) ∧
    kwList " , ,\t " = [] :=
  ⟨(kwList_wellformed " remote work , ai ").1 "remote work" (by decide),
   (kwList_wellformed " , ,\t ").2 (by decide)⟩

/-- C1: with a stub provider that answers every call with a non-empty
string, a valid run succeeds with exactly five stage results in the
fixed order Research, Outline, Writing (Draft), Editing, SEO, plus one
final document from the Finalizer (which is not among the five), after
exactly six provider calls. -/
theorem pipeline_success_shape (stub : Nat → CallArgs → String)
    (hstub : ∀ n args, stub n args ≠ "") (cfg : Config)
    (topic audience tone keywords : String) (word_target : Nat)
    (hk : cfg.api_key ≠ "") (ht : topic ≠ "") (ha : audience ≠ "") :
    ∃ r1 r2 r3 r4 r5 fin,
      runPipeline (okOracle stub) cfg topic audience tone keywords word_target =
        (RunOutcome.success [r1, r2, r3, r4, r5] fin, 6) ∧
      [r1.role, r2.role, r3.role, r4.role, r5.role] =
        ["Research Agent", "Outline Agent", "Writing Agent", "Editing Agent", "SEO Agent"] ∧
      fin.role = "Finalizer" ∧
      fin.role ∉ [r1.role, r2.role, r3.role, r4.role, r5.role] := by
  have hv : ¬(topic = "" ∨ audience = "") := fun hor => hor.elim ht ha
  exact ⟨_, _, _, _, _, _,
    by unfold runPipeline; rw [if_neg hk, if_neg hv]; rfl, rfl, rfl,
    by show ("Finalizer" : String) ∉
        (["Research Agent", "Outline Agent", "Writing Agent", "Editing Agent", "SEO Agent"] :
          List String)
       decide⟩

/-- Witness for C1: a concrete valid request against the constant
stub "x" succeeds with the five ordered stage results and a final
document. -/
theorem pipeline_success_shape_witness :
    ∃ r1 r2 r3 r4 r5 fin,
      runPipeline (okOracle fun _ _ => "x") ⟨"key", "gpt-4o-mini", 0.7, 1200⟩
          "Remote Work Productivity" "HR managers" "Professional"
          "remote work, productivity" 1200 =
        (RunOutcome.success [r1, r2, r3, r4, r5] fin, 6) ∧
      [r1.role, r2.role, r3.role, r4.role, r5.role] =
        ["Research Agent", "Outline Agent", "Writing Agent", "Editing Agent", "SEO Agent"] ∧
      fin.role = "Finalizer" ∧
      fin.role ∉ [r1.role, r2.role, r3.role, r4.role, r5.role] :=
  pipeline_success_shape (fun _ _ => "x") (fun _ _ => by show ("x" : String) ≠ ""; decide)
    ⟨"key", "gpt-4o-mini", 0.7, 1200⟩ "Remote Work Productivity" "HR managers"
    "Professional" "remote work, productivity" 1200
    (by decide) (by decide) (by decide)

/-- C3: if the provider fails only on its third call, the run fails at
the Writing (Draft) stage with exactly the two prior stage results
Research and Outline, after exactly three provider calls — so Edit, SEO
and the Finalizer never reach the provider. -/
theorem draft_failure_isolation (stub : Nat → CallArgs → String) (err : LLMError)
    (cfg : Config) (topic audience tone keywords : String) (word_target : Nat)
    (hk : cfg.api_key ≠ "") (ht : topic ≠ "") (ha : audience ≠ "") :
    ∃ r o,
      runPipeline (failThirdOracle stub err) cfg topic audience tone keywords word_target =
        (RunOutcome.failed "Writing Agent" [r, o] err, 3) ∧
      r.role = "Research Agent" ∧ o.role = "Outline Agent" := by
  have hv : ¬(topic = "" ∨ audience = "") := fun hor => hor.elim ht ha
  exact ⟨_, _, by unfold runPipeline; rw [if_neg hk, if_neg hv]; rfl, rfl, rfl⟩

/-- Witness for C3: a concrete run whose third provider call raises a
rate-limit error fails at the Writing stage with two prior results. -/
theorem draft_failure_isolation_witness :
    ∃ r o,
      runPipeline (failThirdOracle (fun _ _ => "x") (LLMError.providerError 429 "rate limited"))
          ⟨"key", "gpt-4o-mini", 0.7, 1200⟩ "Remote Work Productivity" "HR managers"
          "Professional" "" 1200 =
        (RunOutcome.failed "Writing Agent" [r, o] (LLMError.providerError 429 "rate limited"), 3) ∧
      r.role = "Research Agent" ∧ o.role = "Outline Agent" :=
  draft_failure_isolation (fun _ _ => "x") (LLMError.providerError 429 "rate limited")
    ⟨"key", "gpt-4o-mini", 0.7, 1200⟩ "Remote Work Productivity" "HR managers"
    "Professional" "" 1200 (by decide) (by decide) (by decide)

set_option maxRecDepth 8000 in
/-- C4: the outline user prompt contains the topic, the audience and
the research text verbatim, for every input. -/
theorem outline_prompt_contains_inputs (topic audience tone : String)
    (keywords : List String) (research : String) (word_target : Nat) :
    containsText (outlineUser topic audience tone keywords research word_target) topic ∧
    containsText (outlineUser topic audience tone keywords research word_target) audience ∧
    containsText (outlineUser topic audience tone keywords research word_target) research := by
  refine ⟨⟨("\nCreate an outline for a blog post on: \"").data,
      ("\".\nAudience: " ++ audience ++ "\nTone: " ++ tone ++ "\nTarget keywords: " ++
        joinKeywords keywords ++ "\nWord target: ~" ++ toString word_target ++
        " words.\n\nUse the research below to inform structure (do not repeat it verbatim):\n---\n" ++
        research ++
        "\n---\n\nReturn:\n- Title ideas (3)\n- H1\n- H2/H3 outline with approximate word counts\n- Notes on where to include stats, examples, or visuals\n- Suggested internal/external links placement\n").data,
      ?_⟩,
    ⟨("\nCreate an outline for a blog post on: \"" ++ topic ++ "\".\nAudience: ").data,
      ("\nTone: " ++ tone ++ "\nTarget keywords: " ++ joinKeywords keywords ++
        "\nWord target: ~" ++ toString word_target ++
        " words.\n\nUse the research below to inform structure (do not repeat it verbatim):\n---\n" ++
        research ++
        "\n---\n\nReturn:\n- Title ideas (3)\n- H1\n- H2/H3 outline with approximate word counts\n- Notes on where to include stats, examples, or visuals\n- Suggested internal/external links placement\n").data,
      ?_⟩,
    ⟨("\nCreate an outline for a blog post on: \"" ++ topic ++ "\".\nAudience: " ++ audience ++
        "\nTone: " ++ tone ++ "\nTarget keywords: " ++ joinKeywords keywords ++
        "\nWord target: ~" ++ toString word_target ++
        " words.\n\nUse the research below to inform structure (do not repeat it verbatim):\n---\n").data,
      ("\n---\n\nReturn:\n- Title ideas (3)\n- H1\n- H2/H3 outline with approximate word counts\n- Notes on where to include stats, examples, or visuals\n- Suggested internal/external links placement\n").data,
      ?_⟩⟩ <;>
    simp [outlineUser, String.data_append, List.append_assoc]

set_option maxRecDepth 16000 in
/-- Counterexample to C5 as stated: the SEO stage's conversation (its
system prompt and its user prompt, shown here at a concrete run with
`keywords = []`) contains neither the `"N/A"` marker that the other
stages substitute for an empty keyword list nor the literal text
`"no target keywords"` — the SEO prompt has no keyword field at all. -/
theorem seo_prompt_lacks_keyword_marker :
    (seoArgs ⟨"key", "gpt-4o-mini", 0.7, 1200⟩ "Remote Work Productivity" "HR managers" []
        "d").messages = [⟨"system", seoSystem⟩, ⟨"user", seoUser "d"⟩] ∧
    ¬ containsText (seoUser "d") "N/A" ∧
    ¬ containsText seoSystem "N/A" ∧
    ¬ containsText (seoUser "d") "no target keywords" ∧
    ¬ containsText seoSystem "no target keywords" :=
  ⟨rfl, by decide, by decide, by decide, by decide⟩

/-- C5 (amended): with `keywords = []`, the Research and Outline
prompts do carry the keyword field with the explicit `"N/A"` marker,
but the SEO stage's provider call is entirely independent of the
keyword list (its `keywords` parameter is unused). -/
theorem empty_keywords_marker (topic audience tone research draft_md : String)
    (word_target : Nat) (cfg : Config) (kws kws' : List String) :
    containsText (researchUser topic audience tone []) ("\nTarget keywords: " ++ "N/A") ∧
    containsText (outlineUser topic audience tone [] research word_target)
      ("\nTarget keywords: " ++ "N/A") ∧
    seoArgs cfg topic audience kws draft_md = seoArgs cfg topic audience kws' draft_md := by
  refine ⟨⟨("\nTopic: " ++ topic ++ "\nAudience: " ++ audience ++ "\nTone: " ++ tone).data,
      ("\n\nReturn:\n- 8-12 bullet points of facts with brief context\n- A short list of recent stats (if relevant)\n- 5-8 suggested sources/links (non-paywalled when possible)\nAvoid fabricating URLs.\n").data,
      ?_⟩,
    ⟨("\nCreate an outline for a blog post on: \"" ++ topic ++ "\".\nAudience: " ++ audience ++
        "\nTone: " ++ tone).data,
      ("\nWord target: ~" ++ toString word_target ++
        " words.\n\nUse the research below to inform structure (do not repeat it verbatim):\n---\n" ++
        research ++
        "\n---\n\nReturn:\n- Title ideas (3)\n- H1\n- H2/H3 outline with approximate word counts\n- Notes on where to include stats, examples, or visuals\n- Suggested internal/external links placement\n").data,
      ?_⟩,
    rfl⟩ <;>
    simp [researchUser, outlineUser, joinKeywords, String.data_append, List.append_assoc]

/-- Counterexample to C6 as stated: a provider response carrying no
generated text (the empty string) is returned by `call_llm` as a
success value, instead of failing with an empty-response error. -/
theorem call_llm_accepts_empty_text :
    call_llm (fun _ => Except.ok (mkResp "")) stubArgs = Except.ok "" :=
  rfl

/-- C6 (amended): `call_llm` forwards provider failures unchanged
(the SDK exception, carrying the provider's status and message,
propagates), raises only the `IndexError` of `resp.choices[0]` when the
response has no choices, and otherwise returns the provider's text
as-is — including empty text — as a success value; no
empty-response check exists. -/
theorem call_llm_passthrough (create : CallArgs → Except LLMError ChatResponse)
    (args : CallArgs) :
    (∀ e, create args = Except.error e → call_llm create args = Except.error e) ∧
    (∀ t, create args = Except.ok (mkResp t) → call_llm create args = Except.ok t) ∧
    (create args = Except.ok ⟨[]⟩ →
      call_llm create args = Except.error LLMError.indexError) := by
  refine ⟨fun e he => ?_, fun t ht => ?_, fun hn => ?_⟩
  · rw [call_llm, he]
  · rw [call_llm, ht]
    rfl
  · rw [call_llm, hn]

/-- Witness for C6 (amended): a provider error propagates through
`call_llm`, and a provider success — even with empty text — comes back
as a success. -/
theorem call_llm_passthrough_witness :
    call_llm (fun _ => Except.error (LLMError.providerError 429 "rate limited")) stubArgs =
      Except.error (LLMError.providerError 429 "rate limited") ∧
    call_llm (fun _ => Except.ok (mkResp "some text")) stubArgs = Except.ok "some text" :=
  ⟨(call_llm_passthrough (fun _ => Except.error (LLMError.providerError 429 "rate limited"))
      stubArgs).1 (LLMError.providerError 429 "rate limited") rfl,
   (call_llm_passthrough (fun _ => Except.ok (mkResp "some text")) stubArgs).2.1
      "some text" rfl⟩

set_option maxRecDepth 16000 in
/-- Counterexample to C9 as stated: at a concrete run with the
non-empty audience "AUDX", neither message of the Edit stage's
conversation contains the audience. -/
theorem editing_prompt_omits_audience :
    ("AUDX" ≠ "") ∧
    (editingArgs ⟨"key", "gpt-4o-mini", 0.7, 1200⟩ "my draft" "AUDX" "Professional").messages =
      [⟨"system", editingSystem⟩, ⟨"user", editingUser "my draft" "Professional"⟩] ∧
    ¬ containsText editingSystem "AUDX" ∧
    ¬ containsText (editingUser "my draft" "Professional") "AUDX" :=
  ⟨by decide, rfl, by decide, by decide⟩

/-- C9 (amended): the Edit stage's conversation is built from the draft
markdown and the tone only; the `audience` parameter is accepted but
never interpolated, so the conversation is independent of it. -/
theorem editing_prompt_from_draft_and_tone (cfg : Config)
    (draft_md audience audience' tone : String) :
    editingArgs cfg draft_md audience tone = editingArgs cfg draft_md audience' tone ∧
    containsText (editingUser draft_md tone) draft_md ∧
    containsText (editingUser draft_md tone) tone := by
  refine ⟨rfl,
    ⟨("\nEdit the following markdown draft for clarity, flow, correctness, and concision. Maintain the intended tone: " ++
        tone ++ ". Preserve markdown structure.\n\n---\n").data,
      ("\n---\n\nReturn the revised **markdown** in full.\n").data, ?_⟩,
    ⟨("\nEdit the following markdown draft for clarity, flow, correctness, and concision. Maintain the intended tone: ").data,
      (". Preserve markdown structure.\n\n---\n" ++ draft_md ++
        "\n---\n\nReturn the revised **markdown** in full.\n").data, ?_⟩⟩ <;>
    simp [editingUser, String.data_append, List.append_assoc]
